import Mathlib

/-!
Shallow embedding of `monarch/pcf/app.py` (the Cloud Foundry application
fault-injection engine) and proofs about its behaviour.

The module under study drives remote commands against the instances of a
Cloud Foundry application: blocking traffic, isolating services via
iptables rules, shaping bandwidth, killing monit processes, and
discovering the application topology (GUID, instances, ports, services).

External collaborators (the per-instance `AppInstance` primitives, the
command executor, the configuration store) are modelled as explicit
parameters: per-instance remote operations are represented by the return
codes they yield, and the configuration whitelists are passed in as
lists.  Machine-level details (SSH, logging) are dropped; control flow,
command construction and result propagation follow the Python source
line by line.
-/

namespace Monarch

/-- A Python int/str port value as used in service host triples:
either a concrete port number or the sentinel string `all`. -/
inductive PyPort where
  | num (n : Int)
  | all
deriving DecidableEq, Repr

/-- One `(address, protocol, port)` endpoint of a service
(an element of `service['hosts']`). -/
structure SvcHost where
  sip : String
  protocol : String
  port : PyPort
deriving DecidableEq, Repr

/-- A service bound to the application (`Service` in the source):
`type` tag, `name`, and its host endpoints.  Credentials are omitted as
they play no role in any blocking decision. -/
structure Service where
  type : String
  name : String
  hosts : List SvcHost
deriving DecidableEq, Repr

/-- The fields of an `AppInstance` that the application-level operations
consult: the diego-cell identifier and the container IP. -/
structure Inst where
  diego_id : String
  cont_ip : String
deriving DecidableEq, Repr

/- ----------------------------------------------------------------
C1: `App.block` — early exit and single rollback on first failure.

Source (`app.py`, lines 227-232):
    for app_instance in self.instances:
        rcode = app_instance.block(direction=direction, ports=ports)
        if rcode:
            self.unblock(ports=(ports if not isinstance(ports, str) else None))
            return rcode
    return 0

`app_instance.block` is an external collaborator; each instance is
represented by the return code its `block` call yields.  The embedding
records an event trace: one `blockAttempt` per instance actually
blocked, and one `unblockAll` per invocation of `self.unblock`.
---------------------------------------------------------------- -/

/-- The `ports` argument of `App.block`: either a string policy such as
`env` or `all` (Python `str`), or an explicit collection of ports. -/
inductive PortsArg where
  | strArg (s : String)
  | setArg (ps : List Nat)
deriving DecidableEq, Repr

/-- The `ports` keyword passed to `self.unblock` on rollback:
`ports if not isinstance(ports, str) else None`. -/
def portsToUnblockArg : PortsArg → Option (List Nat)
  | .strArg _ => none
  | .setArg ps => some ps

/-- Events observable during `App.block`: a per-instance block attempt
(with the instance index and the return code it produced), or an
invocation of the application-level `unblock` with its `ports` value. -/
inductive BlockEv where
  | blockAttempt (idx : Nat) (rcode : Int)
  | unblockAll (ports : Option (List Nat))
deriving DecidableEq, Repr

/-- The loop body of `App.block`, iterating over the instances'
per-instance block return codes starting at instance index `i`.
Returns the method's return value together with the event trace. -/
def blockFrom (ports : PortsArg) (i : Nat) : List Int → Int × List BlockEv
  | [] => (0, [])
  | r :: rs =>
    if r ≠ 0 then
      (r, [.blockAttempt i r, .unblockAll (portsToUnblockArg ports)])
    else
      let rest := blockFrom ports (i + 1) rs
      (rest.1, .blockAttempt i r :: rest.2)

/-- `App.block(direction, ports)`: iterate the instances in order,
blocking each; on the first non-zero return code invoke `self.unblock`
once and return that code; return 0 if every instance succeeded.
The traffic `direction` is forwarded verbatim to the per-instance
primitive and does not affect control flow, so it is not a parameter
of the embedding; `rcodes` lists each instance's block result. -/
def App.block (ports : PortsArg) (rcodes : List Int) : Int × List BlockEv :=
  blockFrom ports 0 rcodes

/- ----------------------------------------------------------------
C8: `App.shape_network` — no-op when both limits are absent.

Source (`app.py`, lines 353-361):
    if not (download_limit or upload_limit):
        return 0  # noop
    for app_instance in self.instances:
        rcode = app_instance.shape_network(...)
        if rcode:
            self.unmanipulate_network()
            return rcode
    return 0
---------------------------------------------------------------- -/

/-- Python truthiness of an optional integer argument: `None` is falsy,
and so is the integer 0. -/
def pyTruthyInt : Option Int → Bool
  | none => false
  | some n => n ≠ 0

/-- The instance loop of `App.shape_network`: returns the method's
return code, the number of per-instance shaping calls made, and the
number of `unmanipulate_network` rollback calls made. -/
def shapeLoop : List Int → Int × Nat × Nat
  | [] => (0, 0, 0)
  | r :: rs =>
    if r ≠ 0 then (r, 1, 1)
    else
      let rest := shapeLoop rs
      (rest.1, rest.2.1 + 1, rest.2.2)

/-- `App.shape_network(download_limit, upload_limit)`: a no-op
returning 0 when neither limit is truthy, otherwise the per-instance
loop with rollback on first failure.  `rcodes` lists each instance's
`shape_network` result. -/
def App.shape_network (rcodes : List Int) (download_limit upload_limit : Option Int) :
    Int × Nat × Nat :=
  if !(pyTruthyInt download_limit || pyTruthyInt upload_limit) then (0, 0, 0)
  else shapeLoop rcodes

end Monarch

namespace Monarch

/-- Helper for C1: on a prefix of all-zero return codes followed by a
failing code `c`, `blockFrom` blocks exactly the prefix instances and
the failing one, then rolls back once and returns `c`. -/
theorem blockFrom_first_fail (ports : PortsArg) (zs rest : List Int) (c : Int)
    (hz : ∀ z ∈ zs, z = 0) (hc : c ≠ 0) (i : Nat) :
    blockFrom ports i (zs ++ c :: rest) =
      (c, ((List.range' i zs.length).map fun j => BlockEv.blockAttempt j 0)
            ++ [BlockEv.blockAttempt (i + zs.length) c,
                BlockEv.unblockAll (portsToUnblockArg ports)]) := by
  induction zs generalizing i with
  | nil =>
    simp [blockFrom, hc]
  | cons z zs ih =>
    have hz0 : z = 0 := hz z (by simp)
    have hzs : ∀ z ∈ zs, z = 0 := fun z hzm => hz z (by simp [hzm])
    subst hz0
    have hidx : i + (zs.length + 1) = i + 1 + zs.length := by omega
    simp [blockFrom, ih hzs (i + 1), List.range'_succ, hidx]

/-- Helper for C1: on all-zero return codes, `blockFrom` blocks every
instance, returns 0 and never invokes `unblock`. -/
theorem blockFrom_all_zero (ports : PortsArg) (zs : List Int)
    (hz : ∀ z ∈ zs, z = 0) (i : Nat) :
    blockFrom ports i zs =
      (0, (List.range' i zs.length).map fun j => BlockEv.blockAttempt j 0) := by
  induction zs generalizing i with
  | nil => simp [blockFrom]
  | cons z zs ih =>
    have hz0 : z = 0 := hz z (by simp)
    have hzs : ∀ z ∈ zs, z = 0 := fun z hzm => hz z (by simp [hzm])
    subst hz0
    simp [blockFrom, ih hzs (i + 1), List.range'_succ]

/-- C1: if the instances return an all-zero prefix `zs` of block results
followed by a failing code `c`, then `App.block` blocks exactly the
prefix instances and the failing one (none after it), invokes the
application-level `unblock` exactly once — with the same ports when
`ports` was an explicit collection, with no explicit ports when it was
a string policy — and returns `c`; and on an all-zero run it returns 0
without ever invoking `unblock`. -/
theorem App.block_first_fail_rolls_back_once (s : String) (ps : List Nat)
    (zs rest : List Int) (c : Int) (hz : ∀ z ∈ zs, z = 0) (hc : c ≠ 0) :
    App.block (.strArg s) (zs ++ c :: rest) =
      (c, ((List.range' 0 zs.length).map fun j => BlockEv.blockAttempt j 0)
            ++ [BlockEv.blockAttempt zs.length c, BlockEv.unblockAll none]) ∧
    App.block (.setArg ps) (zs ++ c :: rest) =
      (c, ((List.range' 0 zs.length).map fun j => BlockEv.blockAttempt j 0)
            ++ [BlockEv.blockAttempt zs.length c, BlockEv.unblockAll (some ps)]) ∧
    App.block (.strArg s) zs =
      (0, (List.range' 0 zs.length).map fun j => BlockEv.blockAttempt j 0) ∧
    App.block (.setArg ps) zs =
      (0, (List.range' 0 zs.length).map fun j => BlockEv.blockAttempt j 0) := by
  refine ⟨?_, ?_, ?_, ?_⟩
  · have h := blockFrom_first_fail (.strArg s) zs rest c hz hc 0
    simpa [App.block, portsToUnblockArg] using h
  · have h := blockFrom_first_fail (.setArg ps) zs rest c hz hc 0
    simpa [App.block, portsToUnblockArg] using h
  · exact blockFrom_all_zero (.strArg s) zs hz 0
  · exact blockFrom_all_zero (.setArg ps) zs hz 0

/-- Witness for C1: two instances where the second fails with code 1,
under the string policy `all` and under an explicit port set. -/
theorem App.block_first_fail_witness :
    App.block (.strArg "all") [0, 1] =
      (1, [.blockAttempt 0 0, .blockAttempt 1 1, .unblockAll none]) ∧
    App.block (.setArg [8080]) [0, 1] =
      (1, [.blockAttempt 0 0, .blockAttempt 1 1, .unblockAll (some [8080])]) ∧
    App.block (.strArg "all") [0] = (0, [.blockAttempt 0 0]) ∧
    App.block (.setArg [8080]) [0] = (0, [.blockAttempt 0 0]) := by
  have h := App.block_first_fail_rolls_back_once "all" [8080] [0] [] 1
    (by decide) (by decide)
  simpa [List.range'] using h

/-- C8: with both limits absent, `App.shape_network` returns 0 and makes
no per-instance shaping call and no rollback call, whatever results the
instances would have produced. -/
theorem App.shape_network_noop_without_limits (rcodes : List Int) :
    App.shape_network rcodes none none = (0, 0, 0) := by
  simp [App.shape_network, pyTruthyInt]

/- ----------------------------------------------------------------
C2 / C4: `App.block_services` and `App.unblock_services`.

Source (`app.py`, lines 243-286 and 288-324).  Per instance, a batch of
iptables command strings is built by iterating the services: a service
whose `type` is in `cfg[service-whitelist]` is skipped, as is a service
whose name is not in a truthy `services` filter.  For each remaining
(address, protocol, port) endpoint, `block_services` emits insert rules
for the requested direction(s); `unblock_services` emits the egress and
ingress delete rules, each repeated `TIMES_TO_REMOVE` times, and
dispatches the batch while discarding the return code (the commented-out
code in the source notes that non-zero deletion results are normal).

Commands are modelled as their token lists; the source joins the tokens
with single spaces just before appending to the batch.  `TIMES_TO_REMOVE`
is imported from the package root (not under src/) and is kept abstract
as a parameter `T`.
---------------------------------------------------------------- -/

/-- A traffic direction as returned by `util.parse_direction`. -/
inductive Direction where
  | egress
  | ingress
  | both
deriving DecidableEq, Repr

/-- The optional `--dport`/`--sport` clause: omitted when the service
port is the sentinel `all`. -/
def portClause (flag : String) : PyPort → List String
  | .num n => [flag, toString n]
  | .all => []

/-- Egress insert rule of `block_services` for one endpoint. -/
def egressInsTokens (cip : String) (h : SvcHost) : List String :=
  ["sudo", "iptables", "-I", "FORWARD", "1", "-s", cip, "-d", h.sip, "-p", h.protocol]
    ++ portClause "--dport" h.port ++ ["-j", "DROP"]

/-- Ingress insert rule of `block_services` for one endpoint. -/
def ingressInsTokens (cip : String) (h : SvcHost) : List String :=
  ["sudo", "iptables", "-I", "FORWARD", "1", "-d", cip, "-s", h.sip, "-p", h.protocol]
    ++ portClause "--sport" h.port ++ ["-j", "DROP"]

/-- Insert rules contributed by one endpoint for the requested
direction(s) in `block_services`. -/
def blockHostCmds (direction : Direction) (cip : String) (h : SvcHost) :
    List (List String) :=
  (if direction = .egress ∨ direction = .both then [egressInsTokens cip h] else [])
    ++ (if direction = .ingress ∨ direction = .both then [ingressInsTokens cip h] else [])

/-- The `services` name filter: `if services and service[name] not in
services: continue`.  A `None` or empty filter is falsy in Python, so it
imposes no restriction. -/
def namePass (services_filter : Option (List String)) (s : Service) : Bool :=
  match services_filter with
  | none => true
  | some l => l.isEmpty || l.contains s.name

/-- Whether a service is targeted: its type must not be in the
service-whitelist and its name must pass the filter. -/
def svcPass (wl : List String) (services_filter : Option (List String))
    (s : Service) : Bool :=
  !(wl.contains s.type) && namePass services_filter s

/-- The batch of insert commands `block_services` builds for one
instance with container IP `cip`. -/
def blockInstanceCmds (wl : List String) (services_filter : Option (List String))
    (direction : Direction) (cip : String) (services : List Service) :
    List (List String) :=
  (services.filter (svcPass wl services_filter)).flatMap
    fun s => s.hosts.flatMap (blockHostCmds direction cip)

/-- Egress delete rule of `unblock_services` for one endpoint. -/
def egressDelTokens (cip : String) (h : SvcHost) : List String :=
  ["sudo", "iptables", "-D", "FORWARD", "-s", cip, "-d", h.sip, "-p", h.protocol]
    ++ portClause "--dport" h.port ++ ["-j", "DROP"]

/-- Ingress delete rule of `unblock_services` for one endpoint. -/
def ingressDelTokens (cip : String) (h : SvcHost) : List String :=
  ["sudo", "iptables", "-D", "FORWARD", "-d", cip, "-s", h.sip, "-p", h.protocol]
    ++ portClause "--sport" h.port ++ ["-j", "DROP"]

/-- Delete rules contributed by one endpoint in `unblock_services`:
the egress delete appended `T` times, then the ingress delete appended
`T` times (`T` is `TIMES_TO_REMOVE`). -/
def unblockHostCmds (T : Nat) (cip : String) (h : SvcHost) : List (List String) :=
  List.replicate T (egressDelTokens cip h) ++ List.replicate T (ingressDelTokens cip h)

/-- The batch of delete commands `unblock_services` builds for one
instance with container IP `cip`. -/
def unblockInstanceCmds (T : Nat) (wl : List String)
    (services_filter : Option (List String)) (cip : String)
    (services : List Service) : List (List String) :=
  (services.filter (svcPass wl services_filter)).flatMap
    fun s => s.hosts.flatMap (unblockHostCmds T cip)

/-- The instance loop of `unblock_services`: an empty batch skips the
instance; otherwise the batch is dispatched to the diego cell and the
return code of the dispatch is discarded, exactly as in the source.
Returns the list of (diego cell id, batch) dispatches made. -/
def unblockServicesRun (T : Nat) (wl : List String)
    (services_filter : Option (List String)) (services : List Service)
    (exec : String → List (List String) → Int) :
    List Inst → List (String × List (List String))
  | [] => []
  | i :: rest =>
    let cmds := unblockInstanceCmds T wl services_filter i.cont_ip services
    if cmds.isEmpty then unblockServicesRun T wl services_filter services exec rest
    else
      let _rcode := exec i.diego_id cmds
      (i.diego_id, cmds) :: unblockServicesRun T wl services_filter services exec rest

/-- C2: every command emitted by `block_services` or `unblock_services`
for an instance originates from a service whose type is not in the
service-whitelist (and which passes the name filter); in particular no
command ever references a whitelisted-type service. -/
theorem block_services_respect_whitelist (wl : List String)
    (services_filter : Option (List String)) (direction : Direction)
    (cip : String) (T : Nat) (services : List Service) (cmd1 cmd2 : List String)
    (h1 : cmd1 ∈ blockInstanceCmds wl services_filter direction cip services)
    (h2 : cmd2 ∈ unblockInstanceCmds T wl services_filter cip services) :
    (∃ s, s ∈ services ∧ wl.contains s.type = false ∧ namePass services_filter s = true ∧
       cmd1 ∈ s.hosts.flatMap (blockHostCmds direction cip)) ∧
    (∃ s, s ∈ services ∧ wl.contains s.type = false ∧ namePass services_filter s = true ∧
       cmd2 ∈ s.hosts.flatMap (unblockHostCmds T cip)) := by
  constructor
  · simp only [blockInstanceCmds, List.mem_flatMap, List.mem_filter, svcPass,
      Bool.and_eq_true, Bool.not_eq_true'] at h1
    obtain ⟨s, ⟨hs, hwl, hnm⟩, hh⟩ := h1
    exact ⟨s, hs, hwl, hnm, List.mem_flatMap.mpr hh⟩
  · simp only [unblockInstanceCmds, List.mem_flatMap, List.mem_filter, svcPass,
      Bool.and_eq_true, Bool.not_eq_true'] at h2
    obtain ⟨s, ⟨hs, hwl, hnm⟩, hh⟩ := h2
    exact ⟨s, hs, hwl, hnm, List.mem_flatMap.mpr hh⟩

/-- Witness for C2: one whitelisted and one targetable service; the
egress insert rule and the egress delete rule of the targetable service
are both emitted, and the theorem traces them back to it. -/
theorem block_services_respect_whitelist_witness :
    (∃ s, s ∈ [Service.mk "p-config-server" "cfgsvr" [SvcHost.mk "10.0.0.2" "tcp" (.num 8888)],
               Service.mk "p-mysql" "mysql" [SvcHost.mk "10.0.0.3" "tcp" (.num 3306)]] ∧
       ["p-config-server"].contains s.type = false ∧ namePass none s = true ∧
       egressInsTokens "10.255.0.4" (SvcHost.mk "10.0.0.3" "tcp" (.num 3306))
         ∈ s.hosts.flatMap (blockHostCmds .egress "10.255.0.4")) ∧
    (∃ s, s ∈ [Service.mk "p-config-server" "cfgsvr" [SvcHost.mk "10.0.0.2" "tcp" (.num 8888)],
               Service.mk "p-mysql" "mysql" [SvcHost.mk "10.0.0.3" "tcp" (.num 3306)]] ∧
       ["p-config-server"].contains s.type = false ∧ namePass none s = true ∧
       egressDelTokens "10.255.0.4" (SvcHost.mk "10.0.0.3" "tcp" (.num 3306))
         ∈ s.hosts.flatMap (unblockHostCmds 1 "10.255.0.4")) :=
  block_services_respect_whitelist ["p-config-server"] none .egress "10.255.0.4" 1
    [Service.mk "p-config-server" "cfgsvr" [SvcHost.mk "10.0.0.2" "tcp" (.num 8888)],
     Service.mk "p-mysql" "mysql" [SvcHost.mk "10.0.0.3" "tcp" (.num 3306)]]
    (egressInsTokens "10.255.0.4" (SvcHost.mk "10.0.0.3" "tcp" (.num 3306)))
    (egressDelTokens "10.255.0.4" (SvcHost.mk "10.0.0.3" "tcp" (.num 3306)))
    (by decide) (by decide)

/-- Helper for C4: the egress and ingress delete rules for one endpoint
are distinct commands (they differ at the fifth token). -/
theorem egressDel_ne_ingressDel (cip : String) (h : SvcHost) :
    egressDelTokens cip h ≠ ingressDelTokens cip h := by
  intro heq
  simp [egressDelTokens, ingressDelTokens] at heq

/-- Helper for C4: the instance loop of `unblock_services` never
consults the dispatch return codes: its result is the same under any
two executors. -/
theorem unblockServicesRun_exec_independent (T : Nat) (wl : List String)
    (services_filter : Option (List String)) (services : List Service)
    (exec exec2 : String → List (List String) → Int) (insts : List Inst) :
    unblockServicesRun T wl services_filter services exec insts
      = unblockServicesRun T wl services_filter services exec2 insts := by
  induction insts with
  | nil => rfl
  | cons i rest ih => simp [unblockServicesRun, ih]

/-- Helper for C4: the instance loop of `unblock_services` dispatches to
every instance whose batch is nonempty, in order, and skips only the
instances with an empty batch. -/
theorem unblockServicesRun_covers_all (T : Nat) (wl : List String)
    (services_filter : Option (List String)) (services : List Service)
    (exec : String → List (List String) → Int) (insts : List Inst) :
    (unblockServicesRun T wl services_filter services exec insts).map Prod.fst
      = (insts.filter fun i =>
          !(unblockInstanceCmds T wl services_filter i.cont_ip services).isEmpty).map
          Inst.diego_id := by
  induction insts with
  | nil => rfl
  | cons i rest ih =>
    by_cases hc : (unblockInstanceCmds T wl services_filter i.cont_ip services).isEmpty
    · simp [unblockServicesRun, List.filter_cons, hc, ih]
    · simp [unblockServicesRun, List.filter_cons, hc, ih]

/-- C4: for every endpoint that passes the whitelist and name filter,
`unblock_services` appends exactly `TIMES_TO_REMOVE` copies of the
egress delete command and exactly `TIMES_TO_REMOVE` copies of the
ingress delete command to the instance batch; and the dispatch loop is
unaffected by the remote return codes — it produces the same dispatches
under any executor and reaches every instance with a nonempty batch. -/
theorem unblock_services_times_to_remove_and_no_abort (T : Nat) (wl : List String)
    (services_filter : Option (List String)) (services : List Service)
    (insts : List Inst) (exec exec2 : String → List (List String) → Int)
    (cip : String) (h : SvcHost) :
    ((unblockHostCmds T cip h).count (egressDelTokens cip h) = T ∧
     (unblockHostCmds T cip h).count (ingressDelTokens cip h) = T) ∧
    unblockServicesRun T wl services_filter services exec insts
      = unblockServicesRun T wl services_filter services exec2 insts ∧
    (unblockServicesRun T wl services_filter services exec insts).map Prod.fst
      = (insts.filter fun i =>
          !(unblockInstanceCmds T wl services_filter i.cont_ip services).isEmpty).map
          Inst.diego_id := by
  refine ⟨⟨?_, ?_⟩, unblockServicesRun_exec_independent T wl services_filter services
    exec exec2 insts, unblockServicesRun_covers_all T wl services_filter services exec insts⟩
  · simp [unblockHostCmds, List.count_append, List.count_replicate]
    intro heq
    exact absurd heq.symm (egressDel_ne_ingressDel cip h)
  · simp [unblockHostCmds, List.count_append, List.count_replicate]
    intro heq
    exact absurd heq (egressDel_ne_ingressDel cip h)

/- ----------------------------------------------------------------
C3: port-pair whitelisting in `find_application_instances`.

Source (`app.py`, lines 506-523):
    for ports in instance[ports]:
        diego_port = ports[host_port]
        cont_port = ports[container_port]
        add_diego_port = diego_port not in cfg[host-port-whitelist]
        add_cont_port = cont_port not in cfg[container-port-whitelist]
        if add_diego_port and add_cont_port:
            app_ports.add((diego_port, cont_port))
        diego_tls_port = ports.get(host_tls_proxy_port)
        cont_tls_port = ports.get(container_tls_proxy_port)
        add_diego_tls_port = diego_tls_port is not None and diego_tls_port not in cfg[host-port-whitelist]
        add_cont_tls_port = cont_tls_port is not None and cont_tls_port not in cfg[container-port-whitelist]
        if add_diego_tls_port and add_cont_tls_port:
            app_ports.add((diego_tls_port, cont_tls_port))

`app_ports` is a Python set; the embedding collects the added pairs in
a list and states membership, which models set membership.
---------------------------------------------------------------- -/

/-- One raw port mapping reported by the platform for an instance:
the mandatory host/container pair and the optional TLS-proxy pair. -/
structure PortMapping where
  host_port : Nat
  container_port : Nat
  host_tls_proxy_port : Option Nat
  container_tls_proxy_port : Option Nat
deriving DecidableEq, Repr

/-- The pairs one raw port mapping contributes to `app_ports`: the
plain pair when neither side is whitelisted, and the TLS-proxy pair
when both TLS ports are present and neither is whitelisted. -/
def mappingPairs (hostWl contWl : List Nat) (m : PortMapping) : List (Nat × Nat) :=
  (if m.host_port ∉ hostWl ∧ m.container_port ∉ contWl
   then [(m.host_port, m.container_port)] else [])
    ++ (match m.host_tls_proxy_port, m.container_tls_proxy_port with
        | some hp, some cp => if hp ∉ hostWl ∧ cp ∉ contWl then [(hp, cp)] else []
        | _, _ => [])

/-- The `app_ports` set accumulated over all reported port mappings of
one instance (as the list of added pairs). -/
def appPortsList (hostWl contWl : List Nat) (ms : List PortMapping) : List (Nat × Nat) :=
  ms.flatMap (mappingPairs hostWl contWl)

/-- Helper for C3: characterization of the pairs contributed by a
single port mapping. -/
theorem mem_mappingPairs (hostWl contWl : List Nat) (m : PortMapping) (p : Nat × Nat) :
    p ∈ mappingPairs hostWl contWl m ↔
      (p.1 ∉ hostWl ∧ p.2 ∉ contWl) ∧
        ((p.1 = m.host_port ∧ p.2 = m.container_port) ∨
         (m.host_tls_proxy_port = some p.1 ∧ m.container_tls_proxy_port = some p.2)) := by
  rcases p with ⟨a, b⟩
  rcases m with ⟨hp, cp, htls, ctls⟩
  simp only [mappingPairs, List.mem_append]
  cases htls <;> cases ctls <;> split_ifs <;>
    simp_all [Prod.ext_iff] <;> aesop

/-- C3: a (host-side, container-side) pair is in the instance port set
iff some reported mapping carries it — either as its plain pair or as
its TLS-proxy pair — and neither side is on its respective whitelist;
a whitelisted value on either side excludes the pair. -/
theorem app_ports_whitelist_exclusion (hostWl contWl : List Nat)
    (ms : List PortMapping) (p : Nat × Nat) :
    p ∈ appPortsList hostWl contWl ms ↔
      ∃ m, m ∈ ms ∧ (p.1 ∉ hostWl ∧ p.2 ∉ contWl) ∧
        ((p.1 = m.host_port ∧ p.2 = m.container_port) ∨
         (m.host_tls_proxy_port = some p.1 ∧ m.container_tls_proxy_port = some p.2)) := by
  simp only [appPortsList, List.mem_flatMap, mem_mappingPairs]

/- ----------------------------------------------------------------
C5: `find_application_guid`.

Source (`app.py`, lines 429-445):
    assert appname
    cmd = ... app <appname> --guid
    rcode, stdout, _ = util.run_cmd(cmd)
    guid = stdout.splitlines()[0]
    if rcode:
        sys.exit("Failed retrieving the GUID for the specified app. "
                 "Make sure <appname> is in this space!")
    return guid

Note the order: the first output line is extracted BEFORE the return
code is inspected, so an empty stdout raises IndexError even when the
return code is non-zero, and the sys.exit with its message is never
reached in that case.
---------------------------------------------------------------- -/

/-- Worker for `pySplitlines`: `cur` holds the characters of the line
being read, in reverse.  Reaching the end of input emits the pending
partial line unless it is empty (so a trailing newline adds no line,
and the empty string has no lines). -/
def splitlinesGo (cur : List Char) : List Char → List String
  | [] => if cur = [] then [] else [String.mk cur.reverse]
  | c :: cs =>
    if c = '\n' then String.mk cur.reverse :: splitlinesGo [] cs
    else splitlinesGo (c :: cur) cs

/-- Python str.splitlines restricted to newline separators: the empty
string yields no lines, and a trailing newline does not produce a
trailing empty line. -/
def pySplitlines (s : String) : List String :=
  splitlinesGo [] s.data

/-- Outcome of `find_application_guid`: an uncaught IndexError from
indexing an empty line list, process termination via sys.exit with a
message, or a normal return of the GUID. -/
inductive GuidOutcome where
  | indexError
  | exitMsg (msg : String)
  | ok (guid : String)
deriving DecidableEq, Repr

/-- `find_application_guid(appname)` as a function of the describe-app
invocation result `(rcode, stdout)`.  Mirrors the source order: index
line 0 first, then check the return code. -/
def find_application_guid (appname : String) (rcode : Int) (stdout : String) :
    GuidOutcome :=
  match pySplitlines stdout with
  | [] => .indexError
  | g :: _ =>
    if rcode ≠ 0 then
      .exitMsg ("Failed retrieving the GUID for the specified app. Make sure "
        ++ appname ++ " is in this space!")
    else .ok g

/-- Counterexample for C5: with a non-zero return code and empty
stdout, `find_application_guid` raises IndexError from
`stdout.splitlines()[0]` instead of terminating via sys.exit with the
explanatory message, because the indexing precedes the return code
check. -/
theorem find_application_guid_empty_stdout_counterexample :
    find_application_guid "billing" 1 "" = .indexError := by
  decide

/-- C5 (amended): when the describe-app invocation returns non-zero and
its output has at least one line, `find_application_guid` terminates
the process via sys.exit with the explanatory message naming the
application; and it never returns a GUID to its caller on any non-zero
return code with such output. -/
theorem find_application_guid_nonzero_exits (appname stdout g l : String)
    (ls : List String) (rcode : Int) (hr : rcode ≠ 0)
    (hs : pySplitlines stdout = l :: ls) :
    find_application_guid appname rcode stdout ≠ .ok g ∧
    find_application_guid appname rcode stdout =
      .exitMsg ("Failed retrieving the GUID for the specified app. Make sure "
        ++ appname ++ " is in this space!") := by
  unfold find_application_guid
  rw [hs]
  simp [hr]

/-- Witness for C5 (amended): a failing describe-app call whose stdout
still carries one line exits with the explanatory message. -/
theorem find_application_guid_nonzero_exits_witness :
    find_application_guid "billing" 1 "FAILED\n" ≠ .ok "abc-123" ∧
    find_application_guid "billing" 1 "FAILED\n" =
      .exitMsg ("Failed retrieving the GUID for the specified app. Make sure "
        ++ "billing" ++ " is in this space!") :=
  find_application_guid_nonzero_exits "billing" "FAILED\n" "abc-123" "FAILED" []
    1 (by decide) (by decide)

/- ----------------------------------------------------------------
C6: `App.kill_monit_process`.

Source (`app.py`, lines 370-397):
    for app_instance in self.instances:
        rcode, stdout, _ = app_instance.run_cmd_on_diego_cell(
            find /var/vcap/sys/run | grep <process> | grep pid)
        pid_files = list(filter(  # filter out garbage ssh lines
            lambda l: (/var/vcap/sys/run in l) and (find /var/vcap/sys/run not in l),
            stdout.splitlines()))
        if rcode or not pid_files:
            logger.error(...)
            return rcode
        cmds = [monit unmonitor <process>] + [kill $(cat <pf>) for pf in pid_files]
        rcode, _, _ = app_instance.run_cmd_on_diego_cell(cmds)
        if rcode:
            self.start_monit_process(process)
            return rcode
        return 0

Every branch of the first loop iteration returns, so only the first
instance is ever processed (the source returns None when there are no
instances at all).  Note `return rcode` in the no-PID-files branch:
when the find command itself succeeded, the returned code is 0.
---------------------------------------------------------------- -/

/-- Whether the character list `pat` is a prefix of `l`. -/
def listStartsWith : List Char → List Char → Bool
  | [], _ => true
  | _ :: _, [] => false
  | p :: ps, c :: cs => p == c && listStartsWith ps cs

/-- Whether the character list `pat` occurs contiguously in `l`
(the Python `in` operator on strings). -/
def listContainsSub (pat : List Char) : List Char → Bool
  | [] => listStartsWith pat []
  | l@(_ :: cs) => listStartsWith pat l || listContainsSub pat cs

/-- Python `pat in hay` on strings. -/
def strIn (pat hay : String) : Bool := listContainsSub pat.data hay.data

/-- The PID-file filter of `kill_monit_process`: keep the stdout lines
that mention the run directory but are not the echoed find command. -/
def pidFilter (stdout : String) : List String :=
  (pySplitlines stdout).filter fun l =>
    strIn "/var/vcap/sys/run" l && !(strIn "find /var/vcap/sys/run" l)

/-- The remote command results one instance produces during
`kill_monit_process`: the find invocation result and the return code of
the unmonitor-and-kill batch. -/
structure MonitExec where
  findRcode : Int
  findStdout : String
  killRcode : Int
deriving DecidableEq, Repr

/-- The body of the first (and only effective) loop iteration of
`kill_monit_process`: the return code of the method and whether the
unmonitor/kill batch was dispatched. -/
def killMonitStep (e : MonitExec) : Int × Bool :=
  let pid_files := pidFilter e.findStdout
  if e.findRcode ≠ 0 ∨ pid_files = [] then (e.findRcode, false)
  else if e.killRcode ≠ 0 then (e.killRcode, true)
  else (0, true)

/-- `App.kill_monit_process(process)`: processes only the first
instance (every branch returns); with no instances the Python function
falls off the loop and returns None. -/
def App.kill_monit_process : List MonitExec → Option (Int × Bool)
  | [] => none
  | e :: _ => some (killMonitStep e)

/-- Whether a `kill_monit_process` result is an error return. -/
def isErrorReturn : Option (Int × Bool) → Prop
  | some (c, _) => c ≠ 0
  | none => False

/-- Counterexample for C6: the find command succeeds (code 0) but its
output contains no PID-file lines after filtering; the method skips the
unmonitor/kill batch yet returns 0, a success code — not an error
result as the claim states. -/
theorem kill_monit_no_pid_counterexample :
    App.kill_monit_process [MonitExec.mk 0 "garbage ssh banner" 3] = some (0, false) ∧
    pidFilter "garbage ssh banner" = [] ∧
    ¬ isErrorReturn (App.kill_monit_process [MonitExec.mk 0 "garbage ssh banner" 3]) := by
  have h1 : App.kill_monit_process [MonitExec.mk 0 "garbage ssh banner" 3]
      = some (0, false) := by decide
  refine ⟨h1, by decide, ?_⟩
  rw [h1]
  simp [isErrorReturn]

/-- C6 (amended): when the filtered PID-file list of the first instance
is empty, `kill_monit_process` returns early without dispatching the
unmonitor/kill batch, and the value returned is the find command return
code — which is 0, a success code, when the find itself succeeded. -/
theorem kill_monit_no_pid_returns_find_rcode (e : MonitExec) (rest : List MonitExec)
    (hp : pidFilter e.findStdout = []) :
    App.kill_monit_process (e :: rest) = some (e.findRcode, false) := by
  simp [App.kill_monit_process, killMonitStep, hp]

/-- Witness for C6 (amended): a successful find with noise-only output
yields a 0 return and no kill dispatch. -/
theorem kill_monit_no_pid_returns_find_rcode_witness :
    App.kill_monit_process [MonitExec.mk 0 "garbage ssh banner" 3] = some (0, false) :=
  kill_monit_no_pid_returns_find_rcode (MonitExec.mk 0 "garbage ssh banner" 3) []
    (by decide)

/- ----------------------------------------------------------------
C7: `find_application_services`.

Source (`app.py`, lines 563-597):
    rcode, stdout, _ = util.run_cmd(cf env <appname>)
    if rcode:
        sys.exit("Failed to query application environment variables.")
    json_objs = util.extract_json(stdout)
    if not json_objs:
        sys.exit("Error reading output from cf env")
    for obj in json_objs:
        if VCAP_SERVICES not in obj:
            json_objs.remove(obj)
    if len(json_objs) != 1:
        return []
    vservices = json_objs[0][VCAP_SERVICES]
    ... build services ...

The for loop mutates the list it iterates: CPython iterates by index,
and removing the current element shifts the remainder left so the next
element is skipped.  The embedding `pyForRemove` reproduces exactly
that: read the element at index i, remove the first equal element if it
matches, then advance to index i+1 of the (possibly shortened) list.
---------------------------------------------------------------- -/

/-- A JSON object parsed from the cf env output, identified by a tag so
that list removal (which removes the first structurally equal element)
is modelled exactly, with a flag for whether it has a VCAP_SERVICES
key. -/
structure PyEnvObj where
  oid : Nat
  hasVcap : Bool
deriving DecidableEq, Repr

/-- Fuel-driven worker for `pyForRemove`: read index `i`, remove the
first equal element when the predicate asks for removal, advance to
index `i + 1` of the updated list (skipping the element that shifted
into the removed slot).  One fuel unit is spent per index step; since
each step increments `i` and the list never grows, `l.length` fuel
always reaches the loop exit, so the fuel is only a structural
termination device. -/
def pyForRemoveFuel (p : PyEnvObj → Bool) :
    Nat → List PyEnvObj → Nat → List PyEnvObj
  | 0, l, _ => l
  | fuel + 1, l, i =>
    if h : i < l.length then
      let x := l.get ⟨i, h⟩
      if p x then pyForRemoveFuel p fuel (l.erase x) (i + 1)
      else pyForRemoveFuel p fuel l (i + 1)
    else l

/-- CPython for-loop-with-remove over a list, starting at index `i`. -/
def pyForRemove (p : PyEnvObj → Bool) (l : List PyEnvObj) (i : Nat) : List PyEnvObj :=
  pyForRemoveFuel p l.length l i

/-- Outcome of `find_application_services`: process termination from
the env query failure or the empty parse, an uncaught KeyError from
`json_objs[0][VCAP_SERVICES]`, the empty service list, or the single
surviving object whose services are then built. -/
inductive SvcOutcome where
  | exitEnvQuery
  | exitParse
  | keyError
  | noServices
  | found (o : PyEnvObj)
deriving DecidableEq, Repr

/-- `find_application_services(appname)` as a function of the env query
return code and the parsed JSON objects. -/
def find_application_services (rcode : Int) (json_objs : List PyEnvObj) : SvcOutcome :=
  if rcode ≠ 0 then .exitEnvQuery
  else if json_objs.isEmpty then .exitParse
  else
    let objs := pyForRemove (fun o => !o.hasVcap) json_objs 0
    if hlen : objs.length = 1 then
      let o := objs.get ⟨0, by omega⟩
      if o.hasVcap then .found o else .keyError
    else .noServices

/-- C7 evaluated at the failing input: with two parsed objects neither
of which has a VCAP_SERVICES key, the remove-while-iterating loop
removes only the first (the second shifts into its slot and is
skipped), exactly one object remains, and accessing its VCAP_SERVICES
key raises KeyError — instead of discarding both objects and returning
the empty service list as the claim states. -/
theorem find_application_services_two_keyless_objs :
    find_application_services 0 [PyEnvObj.mk 0 false, PyEnvObj.mk 1 false]
      = .keyError ∧
    pyForRemove (fun o => !o.hasVcap) [PyEnvObj.mk 0 false, PyEnvObj.mk 1 false] 0
      = [PyEnvObj.mk 1 false] := by
  constructor
  · decide
  · decide

/- ----------------------------------------------------------------
C9: `App.serialize`.

Source (`app.py`, lines 115-127):
    return {
        org: self.org,
        space: self.space,
        name: self.name,
        guid: self.guid,
        services: [s.serialize() for s in self.services],
        instances: [i.serialize() for i in self.instances]
    }

The produced dictionary is modelled as an association list of keys to
Python values; the per-service and per-instance serializers live in
modules outside src/ and are passed in as parameters.
---------------------------------------------------------------- -/

/-- A Python value in the serialized representation. -/
inductive PyVal where
  | str (s : String)
  | noneVal
  | listVal (l : List PyVal)

/-- The nullable `guid` field as a Python value. -/
def optStr : Option String → PyVal
  | none => .noneVal
  | some s => .str s

/-- The `App` object state: identity triple, resolved GUID, and the
discovered services and instances. -/
structure App where
  org : String
  space : String
  name : String
  guid : Option String
  services : List Service
  instances : List Inst

/-- `App.serialize()`, with the external per-service and per-instance
serializers abstracted as `sSer` and `iSer`. -/
def App.serialize (sSer : Service → PyVal) (iSer : Inst → PyVal) (a : App) :
    List (String × PyVal) :=
  [("org", .str a.org),
   ("space", .str a.space),
   ("name", .str a.name),
   ("guid", optStr a.guid),
   ("services", .listVal (a.services.map sSer)),
   ("instances", .listVal (a.instances.map iSer))]

/-- C9: the serialized dictionary has the keys org, space, name, guid
bound to the corresponding fields, and keys services and instances
bound to lists of the same lengths as the service and instance
collections, so structural reconstruction preserves the identity
fields and both counts. -/
theorem serialize_preserves_identity_and_counts (sSer : Service → PyVal)
    (iSer : Inst → PyVal) (a : App) :
    (App.serialize sSer iSer a).lookup "org" = some (.str a.org) ∧
    (App.serialize sSer iSer a).lookup "space" = some (.str a.space) ∧
    (App.serialize sSer iSer a).lookup "name" = some (.str a.name) ∧
    (App.serialize sSer iSer a).lookup "guid" = some (optStr a.guid) ∧
    ∃ sl il : List PyVal,
      (App.serialize sSer iSer a).lookup "services" = some (.listVal sl) ∧
      sl.length = a.services.length ∧
      (App.serialize sSer iSer a).lookup "instances" = some (.listVal il) ∧
      il.length = a.instances.length := by
  refine ⟨rfl, rfl, rfl, rfl, a.services.map sSer, a.instances.map iSer,
    rfl, by simp, rfl, by simp⟩

/- ----------------------------------------------------------------
C10: `App.rediscover`.

Source (`app.py`, lines 98-105):
    def rediscover(self):
        self.undo_all()
        new_app = App.discover(self.org, self.space, self.name)
        self.__dict__ = new_app.__dict__

`App.discover` returns None when any discovery step fails.  In that
case `new_app.__dict__` raises AttributeError (None has no __dict__),
so the assignment to `self.__dict__` never executes and every field of
self keeps its pre-rediscovery value; `undo_all` has already run
against the old state (unblock, unblock_services, unmanipulate_network
in order).
---------------------------------------------------------------- -/

/-- The application-level rollback calls made by `undo_all`, in
source order. -/
inductive UndoEv where
  | unblockCall
  | unblockServicesCall
  | unmanipulateNetworkCall
deriving DecidableEq, Repr

/-- The trace of `undo_all`. -/
def undoAllEvents : List UndoEv :=
  [.unblockCall, .unblockServicesCall, .unmanipulateNetworkCall]

/-- `App.rediscover()`, as a function of the result of the fresh
`App.discover` call: returns the undo trace, the state of self after
the call, and whether an exception was raised (true exactly when
discovery returned None and `new_app.__dict__` raised AttributeError
before the field assignment). -/
def App.rediscover (a : App) (discovered : Option App) : List UndoEv × App × Bool :=
  (undoAllEvents,
   match discovered with
   | none => (a, true)
   | some na => (na, false))

/-- C10: when the fresh discovery returns None, `rediscover` raises
instead of completing, after `undo_all` has run, and every field of the
application — org, space, name, guid, services, instances — keeps its
pre-rediscovery value. -/
theorem rediscover_none_raises_and_preserves_fields (a : App) :
    (App.rediscover a none).1 = undoAllEvents ∧
    (App.rediscover a none).2.2 = true ∧
    (App.rediscover a none).2.1.org = a.org ∧
    (App.rediscover a none).2.1.space = a.space ∧
    (App.rediscover a none).2.1.name = a.name ∧
    (App.rediscover a none).2.1.guid = a.guid ∧
    (App.rediscover a none).2.1.services = a.services ∧
    (App.rediscover a none).2.1.instances = a.instances :=
  ⟨rfl, rfl, rfl, rfl, rfl, rfl, rfl, rfl⟩

end Monarch
